import Mathlib

/-!
Shallow embedding of libmidi (src/midi.c, include/midi.h, include/midi_config.h).

The interface pool is modelled as a `List MidiIf`, one entry per slot of the
C array `gv_ifs`.  A handle returned by `midi_if_create` is identified with
the position of its slot in the pool; the C pointer comparison
`pif == &gv_ifs[pif->index]` holds exactly when the slot's stored `index`
field equals that position, which is how `midi_destory` is embedded.

The outbound encoder `midi_out_report_event` is a pure function from the
event number and the optional channel-message payload to the returned status
code together with the list of send-callback invocations it performs; each
invocation is recorded as the list of bytes the callback may read (so its
length is the `len` argument passed to the callback).

Machine bytes are embedded as `Nat`; the C fields involved are all
`unsigned char`, and the validation predicate reproduces the C expression
`!(x >> 7)` as `x >>> 7 == 0`.
-/

/-- Enum `midi_event` values, from include/midi.h. -/
def EVT_SYS_REALTIME_MIN : Nat := 0

def EVT_SYS_REALTIME_TIMING_CLOCK : Nat := 0

def EVT_SYS_REALTIME_RESERVED_F9 : Nat := 1

def EVT_SYS_REALTIME_SEQ_START : Nat := 2

def EVT_SYS_REALTIME_SEQ_CONTINUE : Nat := 3

def EVT_SYS_REALTIME_SEQ_STOP : Nat := 4

def EVT_SYS_REALTIME_RESERVED_FD : Nat := 5

def EVT_SYS_REALTIME_ACTIVE_SENSE : Nat := 6

def EVT_SYS_REALTIME_RESET : Nat := 7

def EVT_SYS_REALTIME_MAX : Nat := 7

def EVT_CHAN_MIN : Nat := 8

def EVT_CHAN_NOTE_OFF : Nat := 8

def EVT_CHAN_NOTE_ON : Nat := 9

def EVT_CHAN_POLY_AFTERTOUCH : Nat := 10

def EVT_CHAN_CONTROL_CHANGE : Nat := 11

def EVT_CHAN_PROGRAM_CHANGE : Nat := 12

def EVT_CHAN_AFTERTOUCH : Nat := 13

def EVT_CHAN_PITCH_BEND : Nat := 14

def EVT_CHAN_MAX : Nat := 14

def EVT_COUNT : Nat := 15

/-- Enum `midi_if_type` values, from include/midi.h. -/
def MIDI_IF_TYPE_IN : Nat := 0

def MIDI_IF_TYPE_OUT : Nat := 1

/-- Pool capacity, from include/midi_config.h. -/
def MIDI_IF_COUNT_MAX : Nat := 8

/-- Enum `midi_event_type`, internal to src/midi.c. -/
inductive MidiEventType where
  | channel
  | sysRealtime
  | sysCommon
  | unknown
deriving DecidableEq, Repr

/-- Embedding of `midi_event_get_type` (src/midi.c): channel events are the
range `[EVT_CHAN_MIN, EVT_CHAN_MAX]`, system real-time events the range
`[EVT_SYS_REALTIME_MIN, EVT_SYS_REALTIME_MAX]` (whose lower bound 0 is
automatic on `Nat`), everything else is unknown. -/
def midi_event_get_type (evt : Nat) : MidiEventType :=
  if EVT_CHAN_MIN ≤ evt ∧ evt ≤ EVT_CHAN_MAX then MidiEventType.channel
  else if evt ≤ EVT_SYS_REALTIME_MAX then MidiEventType.sysRealtime
  else MidiEventType.unknown

/-- Embedding of the constant table `event_status_base` (src/midi.c). -/
def event_status_base (evt : Nat) : Nat :=
  match evt with
  | 0 => 0xf8
  | 1 => 0xf9
  | 2 => 0xfa
  | 3 => 0xfb
  | 4 => 0xfc
  | 5 => 0xfd
  | 6 => 0xfe
  | 7 => 0xff
  | 8 => 0x80
  | 9 => 0x90
  | 10 => 0xa0
  | 11 => 0xb0
  | 12 => 0xc0
  | 13 => 0xd0
  | 14 => 0xe0
  | _ => 0

/-- Embedding of `struct midi_chan_msg` (include/midi.h): channel number and
the two data bytes, all `unsigned char` in C. -/
structure MidiChanMsg where
  chan : Nat
  data0 : Nat
  data1 : Nat
deriving DecidableEq, Repr

/-- Embedding of `midi_chan_msg_is_valid` (src/midi.c):
`chan > 0 && chan < 17 && !(data[0] >> 7) && !(data[1] >> 7)`. -/
def midi_chan_msg_is_valid (msg : MidiChanMsg) : Bool :=
  decide (msg.chan > 0) && decide (msg.chan < 17) &&
    (msg.data0 >>> 7 == 0) && (msg.data1 >>> 7 == 0)

/-- Embedding of `midi_out_report_event` (src/midi.c).  The variadic channel
payload is an `Option MidiChanMsg` (`none` embeds a null pointer).  The result
is the returned `int` together with the list of send-callback invocations,
each recorded as the bytes passed with the corresponding length. -/
def midi_out_report_event (evt : Nat) (chan_msg : Option MidiChanMsg) :
    Int × List (List Nat) :=
  match midi_event_get_type evt with
  | MidiEventType.channel =>
    match chan_msg with
    | none => (-1, [])
    | some msg =>
      if midi_chan_msg_is_valid msg then
        (0, [[event_status_base evt ||| (msg.chan - 1), msg.data0, msg.data1]])
      else
        (-1, [])
  | MidiEventType.sysRealtime => (0, [[event_status_base evt]])
  | MidiEventType.sysCommon => (-1, [])
  | MidiEventType.unknown => (-1, [])

/-- Embedding of `midi_out_report_note` (src/midi.c): builds the channel
message and delegates, choosing note-on or note-off from the boolean. -/
def midi_out_report_note (chan : Nat) (onoff : Bool) (note v : Nat) :
    Int × List (List Nat) :=
  midi_out_report_event (if onoff then EVT_CHAN_NOTE_ON else EVT_CHAN_NOTE_OFF)
    (some { chan := chan, data0 := note, data1 := v })

/-- Embedding of `midi_out_report_control_change` (src/midi.c). -/
def midi_out_report_control_change (chan ctrl v : Nat) :
    Int × List (List Nat) :=
  midi_out_report_event EVT_CHAN_CONTROL_CHANGE
    (some { chan := chan, data0 := ctrl, data1 := v })

/-- Embedding of one slot of `struct midi_if` (src/midi.c): direction tag,
the callback and opaque argument (as numeric values, 0 embedding NULL after
`memset`), and the stored slot index, which is `-1` when the slot is free. -/
structure MidiIf where
  type : Nat
  cb : Nat
  arg : Nat
  index : Int
deriving DecidableEq, Repr

/-- Pool state right after `midi_init` (src/midi.c): the static array is
zero-initialized and `midi_init` sets every slot's index to -1. -/
def midi_init_pool : List MidiIf :=
  List.replicate MIDI_IF_COUNT_MAX { type := 0, cb := 0, arg := 0, index := -1 }

/-- The scan loop of `midi_if_create` (src/midi.c): walk the slots in order,
and at the first slot whose index is -1, clear it (`memset`), stamp the type
and the slot index, and return its position.  `all` is the whole pool the
update is applied to; `rest` is the tail still to scan, starting at
position `i`. -/
def midi_if_create_scan (all : List MidiIf) (ty : Nat) :
    List MidiIf → Nat → Option (Nat × List MidiIf)
  | [], _ => none
  | s :: rest, i =>
    if s.index = -1 then
      some (i, all.set i { type := ty, cb := 0, arg := 0, index := (i : Int) })
    else
      midi_if_create_scan all ty rest (i + 1)

/-- Embedding of `midi_if_create` (src/midi.c): returns the position of the
slot used as the handle, with the updated pool, or `none` when full. -/
def midi_if_create (pool : List MidiIf) (ty : Nat) : Option (Nat × List MidiIf) :=
  midi_if_create_scan pool ty pool 0

/-- Embedding of `midi_destory` (src/midi.c).  A handle is the position `j`
of its slot (`none` embeds a null pointer).  The C guard
`pif != &gv_ifs[pif->index]` compares addresses: for `pif = &gv_ifs[j]` it
fails exactly when the stored index differs from `j`, so the body runs only
when `slot.index = j`, and then only resets the index to -1. -/
def midi_destory (pool : List MidiIf) (pif : Option Nat) : List MidiIf :=
  match pif with
  | none => pool
  | some j =>
    match pool[j]? with
    | none => pool
    | some s =>
      if s.index = (j : Int) then
        pool.set j { s with index := -1 }
      else
        pool

/-- Iterated creation: perform `n` successive `midi_if_create` calls with the
given type, collecting each call's result (the returned slot position, or
`none` for a null return) and the final pool. -/
def midi_create_seq (pool : List MidiIf) (ty : Nat) :
    Nat → List (Option Nat) × List MidiIf
  | 0 => ([], pool)
  | n + 1 =>
    match midi_if_create pool ty with
    | some (i, pool2) =>
      let r := midi_create_seq pool2 ty n
      (some i :: r.fst, r.snd)
    | none =>
      let r := midi_create_seq pool ty n
      (none :: r.fst, r.snd)

/-- Modelled from the spec: events emitted by the inbound decoder's event
callback (`midi_in_recv` is declared in include/midi.h but its byte-stream
segmentation is not implemented under src/).  A channel message carries the
event number, the channel in [1,16] and the accumulated data bytes; a system
real-time event carries only the event number. -/
inductive MidiInEvent where
  | chanMsg (evt : Nat) (chan : Nat) (data : List Nat)
  | realtime (evt : Nat)
deriving DecidableEq, Repr

/-- Modelled from the spec: per-IN-handle decoder state — the running status
byte (or none), the accumulated data bytes of the in-progress message, and
the count of data bytes still expected. -/
structure MidiInState where
  runningStatus : Option Nat
  pendingBytes : List Nat
  pendingCount : Nat
deriving DecidableEq, Repr

/-- Modelled from the spec: decoder state of a freshly created IN handle
(the slot is cleared on creation, so no running status and nothing pending). -/
def midi_in_state_init : MidiInState :=
  { runningStatus := none, pendingBytes := [], pendingCount := 0 }

/-- Modelled from the spec: the data-byte arity of a channel status byte —
2 for note on/off, poly aftertouch, control change and pitch bend
(high nibble 0x8, 0x9, 0xa, 0xb, 0xe), 1 for program change and channel
aftertouch (high nibble 0xc, 0xd). -/
def midi_chan_status_arity (status : Nat) : Nat :=
  if status >>> 4 = 0xc ∨ status >>> 4 = 0xd then 1 else 2

/-- Modelled from the spec: one step of the inbound decoder on a single byte.
A status byte (high bit set) that classifies as system real-time is emitted
immediately without touching the state; a channel status byte (high nibble
0x8..0xe) becomes the running status with its arity as the pending count;
any other status byte clears the running status.  A data byte (high bit
clear) is accumulated while a message is in progress; completing the message
emits it with channel `(status AND 0x0f) + 1` and resets the accumulator,
retaining the running status (and rearming the pending count with the
status's arity, which is what lets a following data-byte pair decode as the
same kind and channel under running-status compression). -/
def midi_in_step (st : MidiInState) (b : Nat) : MidiInState × List MidiInEvent :=
  if b >>> 7 ≠ 0 then
    if 0xf8 ≤ b ∧ b ≤ 0xff then
      (st, [MidiInEvent.realtime (b - 0xf8)])
    else if b ≤ 0xef then
      ({ runningStatus := some b, pendingBytes := [],
         pendingCount := midi_chan_status_arity b }, [])
    else
      ({ runningStatus := none, pendingBytes := [], pendingCount := 0 }, [])
  else
    match st.runningStatus with
    | none => (st, [])
    | some rs =>
      if st.pendingCount = 0 then
        (st, [])
      else if st.pendingCount = 1 then
        ({ runningStatus := some rs, pendingBytes := [],
           pendingCount := midi_chan_status_arity rs },
         [MidiInEvent.chanMsg (rs >>> 4) (rs % 16 + 1) (st.pendingBytes ++ [b])])
      else
        ({ runningStatus := some rs, pendingBytes := st.pendingBytes ++ [b],
           pendingCount := st.pendingCount - 1 }, [])

/-- Modelled from the spec: `midi_in_recv` consumes the input buffer one byte
at a time, returning the final decoder state and the events emitted through
the event callback, in order. -/
def midi_in_recv (st : MidiInState) (data : List Nat) :
    MidiInState × List MidiInEvent :=
  match data with
  | [] => (st, [])
  | b :: rest =>
    let r1 := midi_in_step st b
    let r2 := midi_in_recv r1.fst rest
    (r2.fst, r1.snd ++ r2.snd)







theorem shiftRight7_eq_zero (d : Nat) (h : d ≤ 127) : d >>> 7 = 0 := by
  rw [Nat.shiftRight_eq_div_pow]
  exact Nat.div_eq_of_lt (by omega)

theorem shiftRight7_ne_zero (d : Nat) (h : 128 ≤ d) : d >>> 7 ≠ 0 := by
  rw [Nat.shiftRight_eq_div_pow]
  have h1 : 1 ≤ d / 2 ^ 7 := (Nat.one_le_div_iff (by norm_num)).mpr (by omega)
  omega

theorem midi_event_get_type_eq_channel (evt : Nat) (h1 : 8 ≤ evt) (h2 : evt ≤ 14) :
    midi_event_get_type evt = MidiEventType.channel := by
  unfold midi_event_get_type EVT_CHAN_MIN EVT_CHAN_MAX
  rw [if_pos ⟨h1, h2⟩]

theorem midi_event_get_type_eq_unknown (e : Nat) (h : 15 ≤ e) :
    midi_event_get_type e = MidiEventType.unknown := by
  unfold midi_event_get_type EVT_CHAN_MIN EVT_CHAN_MAX EVT_SYS_REALTIME_MAX
  rw [if_neg (by omega), if_neg (by omega)]

theorem midi_chan_msg_is_valid_true (msg : MidiChanMsg) (hc1 : 1 ≤ msg.chan)
    (hc2 : msg.chan ≤ 16) (hd0 : msg.data0 ≤ 127) (hd1 : msg.data1 ≤ 127) :
    midi_chan_msg_is_valid msg = true := by
  unfold midi_chan_msg_is_valid
  simp [shiftRight7_eq_zero _ hd0, shiftRight7_eq_zero _ hd1]
  omega

theorem midi_chan_msg_is_valid_false (msg : MidiChanMsg)
    (hbad : msg.chan = 0 ∨ 17 ≤ msg.chan ∨ 128 ≤ msg.data0 ∨ 128 ≤ msg.data1) :
    midi_chan_msg_is_valid msg = false := by
  unfold midi_chan_msg_is_valid
  rcases hbad with h | h | h | h
  · simp [h]
  · have hlt : ¬ (msg.chan < 17) := by omega
    simp [hlt]
  · simp [shiftRight7_ne_zero _ h]
  · simp [shiftRight7_ne_zero _ h]

/-- C1: for every channel event kind and every non-null payload with channel
in [1,16] and both data bytes in [0,127], `midi_out_report_event` invokes the
send callback exactly once, with the 3-byte buffer
[status-base OR (channel-1), data0, data1] and length 3, and returns 0;
and on any failure (return -1) the callback is invoked zero times. -/
theorem midi_out_report_event_channel_ok (evt : Nat) (msg : MidiChanMsg)
    (h1 : EVT_CHAN_MIN ≤ evt) (h2 : evt ≤ EVT_CHAN_MAX)
    (hc1 : 1 ≤ msg.chan) (hc2 : msg.chan ≤ 16)
    (hd0 : msg.data0 ≤ 127) (hd1 : msg.data1 ≤ 127) :
    midi_out_report_event evt (some msg) =
      (0, [[event_status_base evt ||| (msg.chan - 1), msg.data0, msg.data1]]) ∧
    ∀ (e : Nat) (m : Option MidiChanMsg),
      (midi_out_report_event e m).fst = -1 → (midi_out_report_event e m).snd = [] := by
  constructor
  · simp [midi_out_report_event, midi_event_get_type_eq_channel evt h1 h2,
      midi_chan_msg_is_valid_true msg hc1 hc2 hd0 hd1]
  · intro e m
    unfold midi_out_report_event
    split
    · split
      · intro _; rfl
      · split
        · intro h; simp at h
        · intro _; rfl
    · intro h; simp at h
    · intro _; rfl
    · intro _; rfl

theorem midi_out_report_event_channel_ok_witness :
    midi_out_report_event 9 (some { chan := 1, data0 := 60, data1 := 100 }) =
      (0, [[0x90, 60, 100]]) := by
  rw [(midi_out_report_event_channel_ok 9 { chan := 1, data0 := 60, data1 := 100 }
    (by decide) (by decide) (by decide) (by decide) (by decide) (by decide)).left]
  decide

/-- C2: for every system real-time event kind, `midi_out_report_event`
invokes the send callback exactly once with a 1-byte buffer holding that
kind's fixed status byte and length 1, and returns 0, regardless of any
payload. -/
theorem midi_out_report_event_realtime_ok (m : Option MidiChanMsg) :
    midi_out_report_event EVT_SYS_REALTIME_TIMING_CLOCK m = (0, [[0xf8]]) ∧
    midi_out_report_event EVT_SYS_REALTIME_RESERVED_F9 m = (0, [[0xf9]]) ∧
    midi_out_report_event EVT_SYS_REALTIME_SEQ_START m = (0, [[0xfa]]) ∧
    midi_out_report_event EVT_SYS_REALTIME_SEQ_CONTINUE m = (0, [[0xfb]]) ∧
    midi_out_report_event EVT_SYS_REALTIME_SEQ_STOP m = (0, [[0xfc]]) ∧
    midi_out_report_event EVT_SYS_REALTIME_RESERVED_FD m = (0, [[0xfd]]) ∧
    midi_out_report_event EVT_SYS_REALTIME_ACTIVE_SENSE m = (0, [[0xfe]]) ∧
    midi_out_report_event EVT_SYS_REALTIME_RESET m = (0, [[0xff]]) :=
  ⟨rfl, rfl, rfl, rfl, rfl, rfl, rfl, rfl⟩

/-- C3: `midi_out_report_event` fails with -1 and performs zero send-callback
invocations when the channel payload is null, when the channel is out of
[1,16] or a data byte has its high bit set, and when the event kind is
unknown; being a pure function of its arguments, it touches no other state. -/
theorem midi_out_report_event_fail_modes (evt : Nat) (msg : MidiChanMsg)
    (h1 : EVT_CHAN_MIN ≤ evt) (h2 : evt ≤ EVT_CHAN_MAX)
    (hbad : msg.chan = 0 ∨ 17 ≤ msg.chan ∨ 128 ≤ msg.data0 ∨ 128 ≤ msg.data1) :
    midi_out_report_event evt none = (-1, []) ∧
    midi_out_report_event evt (some msg) = (-1, []) ∧
    ∀ e : Nat, EVT_COUNT ≤ e → ∀ m : Option MidiChanMsg,
      midi_out_report_event e m = (-1, []) := by
  refine ⟨?_, ?_, ?_⟩
  · simp [midi_out_report_event, midi_event_get_type_eq_channel evt h1 h2]
  · simp [midi_out_report_event, midi_event_get_type_eq_channel evt h1 h2,
      midi_chan_msg_is_valid_false msg hbad]
  · intro e he m
    simp [midi_out_report_event, midi_event_get_type_eq_unknown e he]

theorem midi_out_report_event_fail_modes_witness :
    midi_out_report_event 9 none = (-1, []) ∧
    midi_out_report_event 9 (some { chan := 0, data0 := 5, data1 := 5 }) = (-1, []) ∧
    midi_out_report_event 15 none = (-1, []) := by
  have h := midi_out_report_event_fail_modes 9 { chan := 0, data0 := 5, data1 := 5 }
    (by decide) (by decide) (Or.inl rfl)
  exact ⟨h.1, h.2.1, h.2.2 15 (by decide) none⟩

/-- C9: the classification `midi_event_get_type` never returns the
system-common class on any input, so the system-common branch of
`midi_out_report_event` is unreachable. -/
theorem midi_event_get_type_no_sys_common (evt : Nat) :
    midi_event_get_type evt ≠ MidiEventType.sysCommon := by
  unfold midi_event_get_type
  split
  · simp
  · split <;> simp

/-- C10: calling `midi_destory` with a null handle pointer is a no-op that
changes no pool state. -/
theorem midi_destory_null_noop (pool : List MidiIf) :
    midi_destory pool none = pool := rfl

/-- C4: from the freshly initialized pool of capacity `MIDI_IF_COUNT_MAX = 8`,
the first 8 creations succeed and return the handles at positions 0..7 (each
slot's stored index equalling its pool position), the 9th creation returns
null, and after destroying any one of the 8 handles the next creation
succeeds again, reusing exactly that slot. -/
theorem midi_pool_exhaustion :
    (midi_create_seq midi_init_pool MIDI_IF_TYPE_OUT 9).fst =
      [some 0, some 1, some 2, some 3, some 4, some 5, some 6, some 7, none] ∧
    (∀ k : Fin 8,
      (((midi_create_seq midi_init_pool MIDI_IF_TYPE_OUT 8).snd)[k.val]?).map MidiIf.index =
        some ((k.val : Int))) ∧
    (∀ j : Fin 8,
      (midi_if_create
          (midi_destory (midi_create_seq midi_init_pool MIDI_IF_TYPE_OUT 8).snd (some j.val))
          MIDI_IF_TYPE_OUT).map Prod.fst = some j.val) := by
  decide

/-- C5: destroying a handle twice is a silent no-op: a destroy call on a
handle whose stored index no longer matches its pool position leaves the
pool unchanged, and iterating `midi_destory` a second time on any handle
never changes the pool further (the embedding accesses the pool only
through total lookups, so the pool logic itself performs no out-of-bounds
access). -/
theorem midi_destory_lookup_none (pool : List MidiIf) (j : Nat)
    (h : pool[j]? = none) : midi_destory pool (some j) = pool := by
  show (match pool[j]? with
    | none => pool
    | some s =>
      if s.index = (j : Int) then pool.set j { s with index := -1 } else pool) = pool
  rw [h]

theorem midi_destory_lookup (pool : List MidiIf) (j : Nat) (s : MidiIf)
    (hs : pool[j]? = some s) :
    midi_destory pool (some j) =
      if s.index = (j : Int) then pool.set j { s with index := -1 } else pool := by
  show (match pool[j]? with
    | none => pool
    | some s =>
      if s.index = (j : Int) then pool.set j { s with index := -1 } else pool) = _
  rw [hs]

theorem midi_destory_double_noop (pool : List MidiIf) (j : Nat) (s : MidiIf)
    (hs : pool[j]? = some s) (hne : s.index ≠ (j : Int)) :
    midi_destory pool (some j) = pool ∧
    ∀ (p : List MidiIf) (h : Option Nat),
      midi_destory (midi_destory p h) h = midi_destory p h := by
  constructor
  · rw [midi_destory_lookup pool j s hs, if_neg hne]
  · intro p h
    cases h with
    | none => rfl
    | some j2 =>
      cases hp : p[j2]? with
      | none =>
        have h1 : midi_destory p (some j2) = p := midi_destory_lookup_none p j2 hp
        rw [h1, h1]
      | some s2 =>
        by_cases hidx : s2.index = (j2 : Int)
        · have hlen : j2 < p.length := by
            by_contra hcon
            rw [List.getElem?_eq_none (by omega)] at hp
            exact Option.noConfusion hp
          have h1 : midi_destory p (some j2) = p.set j2 { s2 with index := -1 } := by
            rw [midi_destory_lookup p j2 s2 hp, if_pos hidx]
          rw [h1]
          have h2 : (p.set j2 { s2 with index := -1 })[j2]? =
              some { s2 with index := -1 } :=
            List.getElem?_set_eq_of_lt _ (by simpa using hlen)
          rw [midi_destory_lookup _ j2 _ h2,
            if_neg (show ¬((-1 : Int) = (j2 : Int)) by omega)]
        · have h1 : midi_destory p (some j2) = p := by
            rw [midi_destory_lookup p j2 s2 hp, if_neg hidx]
          rw [h1]
          rw [midi_destory_lookup p j2 s2 hp, if_neg hidx]

theorem midi_destory_double_noop_witness :
    midi_destory [({ type := 1, cb := 2, arg := 3, index := -1 } : MidiIf)] (some 0) =
      [({ type := 1, cb := 2, arg := 3, index := -1 } : MidiIf)] :=
  (midi_destory_double_noop [{ type := 1, cb := 2, arg := 3, index := -1 }] 0
    { type := 1, cb := 2, arg := 3, index := -1 } rfl (by decide)).left

/-- C6 counterexample: destroying a valid handle does not clear the slot's
remaining contents — the direction tag, callback and argument survive (only
the index is reset), so the destroyed slot differs from a cleared slot. -/
theorem midi_destory_contents_retained_cex :
    midi_destory [({ type := 1, cb := 5, arg := 7, index := 0 } : MidiIf)] (some 0) =
      [({ type := 1, cb := 5, arg := 7, index := -1 } : MidiIf)] ∧
    midi_destory [({ type := 1, cb := 5, arg := 7, index := 0 } : MidiIf)] (some 0) ≠
      [({ type := 0, cb := 0, arg := 0, index := -1 } : MidiIf)] := by
  decide

/-- C6 (amended): for a valid handle (stored index equal to its pool
position), `midi_destory` resets that slot's index to -1 while leaving the
slot's direction tag, callback and argument unchanged (they are cleared
only when the slot is reused by `midi_if_create`), and leaves every other
pool slot unchanged. -/
theorem midi_destory_valid_resets_index (pool : List MidiIf) (j : Nat) (s : MidiIf)
    (hs : pool[j]? = some s) (hidx : s.index = (j : Int)) :
    midi_destory pool (some j) =
      pool.set j { type := s.type, cb := s.cb, arg := s.arg, index := -1 } := by
  rw [midi_destory_lookup pool j s hs, if_pos hidx]

theorem midi_destory_valid_resets_index_witness :
    midi_destory [({ type := 1, cb := 5, arg := 7, index := 0 } : MidiIf),
        ({ type := 0, cb := 9, arg := 9, index := 1 } : MidiIf)] (some 0) =
      [({ type := 1, cb := 5, arg := 7, index := -1 } : MidiIf),
        ({ type := 0, cb := 9, arg := 9, index := 1 } : MidiIf)] := by
  rw [midi_destory_valid_resets_index _ 0 { type := 1, cb := 5, arg := 7, index := 0 }
    rfl rfl]
  decide

/-- C7: the convenience wrappers delegate to the general report operation:
for in-range arguments, `midi_out_report_note` returns the same result and
produces the same send-callback invocations as `midi_out_report_event` with
the note-on/note-off kind selected by the boolean and the payload built from
its arguments, and `midi_out_report_control_change` likewise with the
control-change kind. -/
theorem midi_out_wrappers_delegate (chan : Nat) (onoff : Bool) (note v ctrl : Nat)
    (_hc1 : 1 ≤ chan) (_hc2 : chan ≤ 16) (_hn : note ≤ 127) (_hv : v ≤ 127)
    (_hct : ctrl ≤ 127) :
    midi_out_report_note chan onoff note v =
      midi_out_report_event (if onoff then EVT_CHAN_NOTE_ON else EVT_CHAN_NOTE_OFF)
        (some { chan := chan, data0 := note, data1 := v }) ∧
    midi_out_report_control_change chan ctrl v =
      midi_out_report_event EVT_CHAN_CONTROL_CHANGE
        (some { chan := chan, data0 := ctrl, data1 := v }) :=
  ⟨rfl, rfl⟩

theorem midi_out_wrappers_delegate_witness :
    midi_out_report_note 1 true 60 100 =
      midi_out_report_event 9 (some { chan := 1, data0 := 60, data1 := 100 }) ∧
    midi_out_report_control_change 1 7 100 =
      midi_out_report_event 11 (some { chan := 1, data0 := 7, data1 := 100 }) :=
  midi_out_wrappers_delegate 1 true 60 100 7 (by decide) (by decide) (by decide)
    (by decide) (by decide)

theorem event_status_base_channel (e : Nat) (h1 : 8 ≤ e) (h2 : e ≤ 14) :
    event_status_base e = 16 * e := by
  interval_cases e <;> rfl

theorem lor_low (e c : Nat) (h1 : 8 ≤ e) (h2 : e ≤ 14) (hc : c < 16) :
    16 * e ||| c = 16 * e + c := by
  interval_cases e <;> interval_cases c <;> decide

/-- C8 counterexample: the round trip fails for the one-data-byte channel
kinds — encoding a program-change event always sends three bytes, and the
spec's decoder, whose arity for program change is one data byte, turns them
into two emitted events rather than exactly one. -/
theorem midi_roundtrip_one_byte_kind_cex :
    (midi_out_report_event EVT_CHAN_PROGRAM_CHANGE
        (some { chan := 1, data0 := 1, data1 := 2 })).snd.flatten = [0xc0, 1, 2] ∧
    (midi_in_recv midi_in_state_init [0xc0, 1, 2]).snd =
      [MidiInEvent.chanMsg EVT_CHAN_PROGRAM_CHANGE 1 [1],
        MidiInEvent.chanMsg EVT_CHAN_PROGRAM_CHANGE 1 [2]] ∧
    (midi_in_recv midi_in_state_init
        ((midi_out_report_event EVT_CHAN_PROGRAM_CHANGE
          (some { chan := 1, data0 := 1, data1 := 2 })).snd.flatten)).snd.length ≠ 1 := by
  decide

/-- C8 (amended): for every two-data-byte channel event kind (note off,
note on, polyphonic aftertouch, control change, pitch bend), channel in
[1,16] and data bytes in [0,127], encoding the event via
`midi_out_report_event` and feeding the produced bytes through
`midi_in_recv` on a fresh IN decoder state yields exactly one emitted event
with the same kind, channel and data bytes.  (For the one-data-byte kinds,
program change and channel aftertouch, the three encoded bytes decode as
two events instead.) -/
theorem midi_roundtrip_channel (evt chan d0 d1 : Nat)
    (hevt : evt = EVT_CHAN_NOTE_OFF ∨ evt = EVT_CHAN_NOTE_ON ∨
      evt = EVT_CHAN_POLY_AFTERTOUCH ∨ evt = EVT_CHAN_CONTROL_CHANGE ∨
      evt = EVT_CHAN_PITCH_BEND)
    (hc1 : 1 ≤ chan) (hc2 : chan ≤ 16) (hd0 : d0 ≤ 127) (hd1 : d1 ≤ 127) :
    (midi_in_recv midi_in_state_init
        ((midi_out_report_event evt
          (some { chan := chan, data0 := d0, data1 := d1 })).snd.flatten)).snd =
      [MidiInEvent.chanMsg evt chan [d0, d1]] := by
  have hevt5 : evt = 8 ∨ evt = 9 ∨ evt = 10 ∨ evt = 11 ∨ evt = 14 := hevt
  have h1 : 8 ≤ evt := by omega
  have h2 : evt ≤ 14 := by omega
  have henc : (midi_out_report_event evt
      (some { chan := chan, data0 := d0, data1 := d1 })).snd.flatten =
      [16 * evt + (chan - 1), d0, d1] := by
    simp [midi_out_report_event, midi_event_get_type_eq_channel evt h1 h2,
      midi_chan_msg_is_valid_true { chan := chan, data0 := d0, data1 := d1 }
        hc1 hc2 hd0 hd1,
      event_status_base_channel evt h1 h2, lor_low evt (chan - 1) h1 h2 (by omega)]
  rw [henc]
  have hb7 : (16 * evt + (chan - 1)) >>> 7 = 1 := by
    rw [Nat.shiftRight_eq_div_pow]
    have hlt : 16 * evt + (chan - 1) < 256 := by omega
    have hge : 128 ≤ 16 * evt + (chan - 1) := by omega
    norm_num
    omega
  have hb4 : (16 * evt + (chan - 1)) >>> 4 = evt := by
    rw [Nat.shiftRight_eq_div_pow]
    norm_num
    omega
  have hmod : (16 * evt + (chan - 1)) % 16 = chan - 1 := by omega
  have hnrt : ¬ (248 ≤ 16 * evt + (chan - 1) ∧ 16 * evt + (chan - 1) ≤ 255) := by
    omega
  have hle : 16 * evt + (chan - 1) ≤ 239 := by omega
  have harity : midi_chan_status_arity (16 * evt + (chan - 1)) = 2 := by
    unfold midi_chan_status_arity
    rw [hb4, if_neg (by omega)]
  have hd0s : d0 >>> 7 = 0 := shiftRight7_eq_zero d0 hd0
  have hd1s : d1 >>> 7 = 0 := shiftRight7_eq_zero d1 hd1
  simp [midi_in_recv, midi_in_step, midi_in_state_init, hb7, hb4, hmod, hnrt,
    hle, harity, hd0s, hd1s]
  omega

theorem midi_roundtrip_channel_witness :
    (midi_in_recv midi_in_state_init
        ((midi_out_report_event 9
          (some { chan := 1, data0 := 60, data1 := 100 })).snd.flatten)).snd =
      [MidiInEvent.chanMsg 9 1 [60, 100]] :=
  midi_roundtrip_channel 9 1 60 100 (Or.inr (Or.inl rfl)) (by decide) (by decide)
    (by decide) (by decide)
